import Mathlib

/-!
Shallow embedding of the Sierra Outfitters dialogue agent
(src/agent/conversation.py together with the mixin methods of
src/agent/utils/agent_utils.py, src/agent/utils/order_utils.py,
src/agent/utils/product_utils.py and the data helpers of
src/agent/services/orders.py, src/agent/services/products.py).

The external services (the OpenAI oracle, the order store and the product
catalog HTTP endpoints) are modelled as scripted response queues carried in
an `Env` value: each call consumes the head of the corresponding queue, and
an exhausted queue or a `none` entry stands for the call raising an
exception, which the Python code catches and maps to its documented local
default.  All other logic is translated statement by statement from the
source.
-/

namespace Sierra

/-- The role of a conversation turn (the "role" key of the history dicts). -/
inductive Role where
  | user
  | assistant
deriving DecidableEq

/-- One entry of `self.conversation_history`. -/
structure Turn where
  role : Role
  content : String
deriving DecidableEq

/-- `AgentState` enum from src/agent/conversation.py (same values as
src/agent/types.py). -/
inductive AgentState where
  | WELCOME
  | INTENT_DETECTION
  | INFO_GATHERING
  | DATA_RETRIEVAL
deriving DecidableEq

/-- `Intent` enum from src/agent/conversation.py: note it has no
OTHER_DISCOUNTS member. -/
inductive Intent where
  | NONE
  | ORDER_STATUS
  | PRODUCT_RECOMMENDATIONS
  | PROMOTIONS
deriving DecidableEq

/-- The `collected_info` dict.  Only the keys `order_number` and `email`
are ever read or written by the source, so it is modelled as two optional
fields; an absent key and a key mapped to None are indistinguishable to the
source (`dict.get` and truthiness), and both are `none` here. -/
structure CollectedInfo where
  order_number : Option String
  email : Option String
deriving DecidableEq

/-- The empty `collected_info` dict (`{}` in the source). -/
def empty_collected_info : CollectedInfo := ⟨none, none⟩

/-- Result of `_extract_order_details_with_llm` (the `OrderDetails`
pydantic model of src/agent/utils/order_utils.py). -/
structure OrderDetails where
  order_number : Option String
  email : Option String
deriving DecidableEq

/-- An order record as served by the order store
(src/agent/services/orders.py / src/api/models/order.py field names). -/
structure Order where
  OrderNumber : String
  CustomerName : String
  Email : String
  ProductsOrdered : List String
  Status : String
  TrackingNumber : Option String
deriving DecidableEq

/-- A product record as served by the product catalog. -/
structure Product where
  ProductName : String
  SKU : String
  Inventory : Nat
  Description : String
  Tags : List String
deriving DecidableEq

/-- Python truthiness of an optional string value: None and the empty
string are falsy, every other string is truthy. -/
def truthy : Option String → Bool
  | none => false
  | some s => s != ""

/-- The mutable state of a `SierraAgent` instance
(src/agent/conversation.py `__init__`). -/
structure SierraAgent where
  conversation_history : List Turn
  state : AgentState
  current_intent : Intent
  collected_info : CollectedInfo
  product_context : List (String × String)
  order_context : List (String × String)
deriving DecidableEq

/-- Scripted responses of the external collaborators.  Each call site pops
the head of its queue; a `none` entry (or an empty queue) plays the raised
exception that the Python code catches. -/
structure Env where
  intents : List (Option String)
  extractions : List (Option OrderDetails)
  sufficiency : List (Option String)
  generations : List (Option String)
  catalogs : List (List Product)
  orderSearches : List (Option (List Order))
deriving DecidableEq

/-- A processed turn: the reply text, the updated agent and the remaining
environment script. -/
abbrev Res := String × SierraAgent × Env

/-- The fresh agent produced by `SierraAgent.__init__`. -/
def initial_agent : SierraAgent :=
  ⟨[], AgentState.WELCOME, Intent.NONE, empty_collected_info, [], []⟩

/-- Python `str.lower()` over the character list (kernel-reducible
replacement for the builtin lowering). -/
def py_lower (s : String) : String := ⟨s.data.map Char.toLower⟩

/-- Python `str.upper()` over the character list. -/
def py_upper (s : String) : String := ⟨s.data.map Char.toUpper⟩

/-- Python `str.strip()` over the character list: drop whitespace from
both ends. -/
def py_strip (s : String) : String :=
  ⟨((s.data.dropWhile Char.isWhitespace).reverse.dropWhile Char.isWhitespace).reverse⟩

/-- The labels accepted by `_detect_intent_llm` (its `valid_intents`
list). -/
def valid_intents : List String :=
  ["order_status", "product_recommendations", "promotions", "other_discounts", "none"]

/-- The post-processing `_detect_intent_llm` applies to the raw model
output: `.strip().lower()` followed by the membership check against
`valid_intents`, anything else becoming "none". -/
def normalize_intent_label (raw : String) : String :=
  let intent := py_lower (py_strip raw)
  if valid_intents.contains intent then intent else "none"

/-- `_detect_intent_llm` of src/agent/utils/agent_utils.py over the
scripted environment: consumes one classification response; an exception
(`none` entry or exhausted script) returns "none". -/
def detect_intent_llm (e : Env) : String × Env :=
  match e.intents with
  | [] => ("none", e)
  | r :: rest =>
    let e1 : Env := {e with intents := rest}
    match r with
    | none => ("none", e1)
    | some raw => (normalize_intent_label raw, e1)

/-- The `intent_mapping` dict of `_handle_intent_detection` and
`_handle_info_gathering` (`dict.get` with default `Intent.NONE`); the
label "other_discounts" has no entry and therefore maps to NONE. -/
def intent_mapping (s : String) : Intent :=
  if s == "order_status" then Intent.ORDER_STATUS
  else if s == "product_recommendations" then Intent.PRODUCT_RECOMMENDATIONS
  else if s == "promotions" then Intent.PROMOTIONS
  else Intent.NONE

/-- `_extract_order_details_with_llm` of src/agent/utils/order_utils.py:
consumes one extraction response; an exception yields both fields None. -/
def extract_order_details_with_llm (e : Env) : OrderDetails × Env :=
  match e.extractions with
  | [] => (⟨none, none⟩, e)
  | r :: rest => (r.getD ⟨none, none⟩, {e with extractions := rest})

/-- `_check_for_product_question` of src/agent/utils/product_utils.py:
consumes one sufficiency response, compares the stripped lowered output
with "yes"; on an exception it defaults to `true` (fail open). -/
def check_for_product_question (e : Env) : Bool × Env :=
  match e.sufficiency with
  | [] => (true, e)
  | r :: rest =>
    let e1 : Env := {e with sufficiency := rest}
    match r with
    | none => (true, e1)
    | some raw => (py_lower (py_strip raw) == "yes", e1)

/-- The fallback sentence `_generate_product_matching_response` returns
when the generation call raises. -/
def generation_error_msg : String :=
  "I found some products that might interest you, but I\x27m having trouble retrieving the details right now. Can you please try again?"

/-- `_generate_product_matching_response` of
src/agent/utils/product_utils.py: consumes one generation response,
strips it, and maps any result of length at most 2 to the empty string
(the `len(result) <= 2` guard); an exception returns the fixed error
sentence instead of the empty string. -/
def generate_product_matching_response (e : Env) : String × Env :=
  match e.generations with
  | [] => (generation_error_msg, e)
  | r :: rest =>
    let e1 : Env := {e with generations := rest}
    match r with
    | none => (generation_error_msg, e1)
    | some raw =>
      let result := py_strip raw
      (if result.length ≤ 2 then "" else result, e1)

/-- `get_all_products` of src/agent/services/products.py: every failure
path of the source returns the empty list, so the scripted call returns a
plain product list, with `[]` standing for both an empty catalog and any
transport failure. -/
def get_all_products (e : Env) : List Product × Env :=
  match e.catalogs with
  | [] => ([], e)
  | c :: rest => (c, {e with catalogs := rest})

/-- `search_orders` of src/agent/services/orders.py: `none` is a raised
transport error, `some l` the decoded order list. -/
def search_orders (e : Env) : Option (List Order) × Env :=
  match e.orderSearches with
  | [] => (none, e)
  | r :: rest => (r, {e with orderSearches := rest})

/-- `get_order_details` of src/agent/services/orders.py on top of a
`search_orders` outcome: an empty result list raises ValueError, otherwise
the first order is returned; `none` means the exception propagates. -/
def get_order_details : Option (List Order) → Option Order
  | some (o :: _) => some o
  | _ => none

/-- `order_status_to_readable` of src/agent/services/orders.py. -/
def order_status_to_readable (status : String) : String :=
  let s := py_lower status
  if s == "delivered" then "The order has been delivered"
  else if s == "in-transit" then "The order is on its way"
  else if s == "fulfilled" then "The order has been processed and is ready for shipping"
  else if s == "error" then "There was an issue with the order"
  else "The order status is: " ++ status

/-- `format_order_info` of src/agent/services/orders.py. -/
def format_order_info (order : Order) : String :=
  let products_ordered := String.intercalate ", " order.ProductsOrdered
  let tracking_info :=
    if truthy order.TrackingNumber then
      "Tracking Number: " ++ order.TrackingNumber.getD "" ++
        "\nTracking Link: https://tools.usps.com/go/TrackConfirmAction?tLabels=" ++
        order.TrackingNumber.getD ""
    else "No tracking number available"
  "\n    Order: " ++ order.OrderNumber ++
    "\n    Customer: " ++ order.CustomerName ++ " (" ++ order.Email ++ ")" ++
    "\n    Status: " ++ py_upper order.Status ++
    "\n    Products Ordered: " ++ products_ordered ++
    "\n    Tracking Info: " ++ tracking_info ++ "\n    "

/-- `handle_early_risers_promotion` of src/agent/utils/agent_utils.py.
The wall-clock hour in the Pacific timezone, the formatted current time
and the `uuid4().hex[:8].upper()` fragment are nondeterministic inputs of
the source and enter here as parameters. -/
def handle_early_risers_promotion (hour : Nat) (time_str : String) (uuid_hex : String) : String :=
  if 8 ≤ hour ∧ hour < 10 then
    let discount_code := "EARLY-" ++ uuid_hex
    "Great news! You qualify for our Early Risers Promotion ☀️. Here\x27s your unique 10% discount code: " ++
      discount_code ++ "\n\nThis code is valid for your next purchase. Can I help you with anything else?"
  else
    "The Early Risers Promotion is only available between 8:00 AM and 10:00 AM Pacific Time ☀️. Current time is " ++
      time_str ++ ". Please check back during promotion hours. Can I help you with anything else?"

/-- `handle_other_promotion_requests` of src/agent/utils/agent_utils.py. -/
def handle_other_promotion_requests : String :=
  "I\x27m sorry, but the promotion or discount you\x27re asking about isn\x27t currently available. Is there something else I can help you with?"

/-- `_send_response` of src/agent/utils/agent_utils.py: append the
assistant reply to the history, set the next state, return the reply. -/
def send_response (response : String) (next_state : AgentState) (a : SierraAgent) (e : Env) : Res :=
  (response,
   {a with conversation_history := a.conversation_history ++ [⟨Role.assistant, response⟩],
           state := next_state},
   e)

/-- Fixed message texts of src/agent/conversation.py and the mixins. -/
def welcome_msg : String :=
  "Welcome, I am Sierra Outfitters agent. You can ask about the status of an order, product recommendations, or potential promotions. What would you like to request?"

/-- Clarification prompt of `_handle_intent_detection` when the oracle
returns "none". -/
def clarification_msg : String :=
  "I\x27m not quite sure what you would like me to help with. You can ask about the status of an order, product recommendations, or potential promotions. What would you like to request?"

/-- The PROMOTIONS branch reply of `_handle_intent_detection`
(src/agent/conversation.py lines 96-98). -/
def promotions_menu_msg : String :=
  "We currently have several promotions running. Would you like to hear about seasonal discounts, member-only offers, or bundle deals?"

/-- The unhandled-intent fallback of `_handle_intent_detection`
(src/agent/conversation.py lines 100-103). -/
def intent_fallback_msg : String :=
  "I understand you\x27re interested in something, but I\x27m not sure what specifically. You can ask about the status of an order, product recommendations, or potential promotions. What would you like to request?"

/-- The default branch reply of `_handle_info_gathering`. -/
def info_fallback_msg : String :=
  "I\x27m not sure what information I need. Let\x27s start over. What would you like help with?"

/-- The final fallback of `process_message`. -/
def default_fallback_msg : String :=
  "I\x27m sorry, I\x27m having trouble understanding. Could you please try again?"

/-- The PROMOTIONS branch reply of `_handle_data_retrieval`. -/
def promo_month_msg : String :=
  "We have several promotions running this month! Enjoy 20% off all hiking gear, free shipping on orders over $75, and buy-one-get-one 50% off on select clothing items. Would you like more information on any of these promotions?"

/-- The default branch reply of `_handle_data_retrieval`. -/
def retrieval_fallback_msg : String :=
  "I\x27m sorry, I wasn\x27t able to retrieve the information you requested. Let\x27s try something else. What would you like to know about?"

/-- The not-found apology of `_handle_data_retrieval`, naming the
submitted order number and email. -/
def not_found_msg (order_number email : String) : String :=
  "Sorry, I couldn\x27t find an order with number " ++ order_number ++ " for email " ++ email ++ ". Please double check and try again."

/-- The missing-information reply of `_handle_data_retrieval`. -/
def missing_info_msg : String :=
  "I\x27m missing some necessary information to check your order. Let\x27s start over. Please provide your order number and email address."

/-- The catalog-unavailable reply of `_handle_product_info_gathering`. -/
def product_unavailable_msg : String :=
  "I\x27m having trouble accessing our product information right now. Could you please try again later?"

/-- The more-details prompt of `_handle_product_info_gathering` when the
sufficiency check answers no. -/
def product_detail_prompt_msg : String :=
  "Please provide me more details about what you\x27re looking for. I can help you find products!"

/-- The no-match re-prompt of `_handle_product_info_gathering` when the
generated response is empty. -/
def no_match_msg : String :=
  "I couldn\x27t find any products matching your criteria. Could you please provide more details about what you\x27re looking for? For example, what type of activity, features, or categories are important to you?"

/-- The slot prompts of `_handle_order_info_gathering`. -/
def need_both_msg : String :=
  "To check your order status, I\x27ll need your order number and email address. Can you please provide this information?"

/-- Prompt when only the email is known. -/
def need_order_number_msg (email : String) : String :=
  "I have your email address (" ++ email ++ "), but I still need your order number (starts with #W). Could you please provide it?"

/-- Prompt when only the order number is known. -/
def need_email_msg (order_number : String) : String :=
  "I have your order number (" ++ order_number ++ "), but I still need the email address associated with this order. Could you please provide it?"

/-- The unreachable trailing prompt of `_handle_order_info_gathering`. -/
def need_more_info_msg : String :=
  "I need some more information to check your order status. Could you provide both your order number and email address?"

/-- `_handle_product_info_gathering` of src/agent/utils/product_utils.py. -/
def handle_product_info_gathering (a : SierraAgent) (e : Env) : Res :=
  let pc := get_all_products e
  if pc.1.isEmpty then
    send_response product_unavailable_msg AgentState.INTENT_DETECTION a pc.2
  else
    let q := check_for_product_question pc.2
    if q.1 = false then
      send_response product_detail_prompt_msg AgentState.INFO_GATHERING a q.2
    else
      let g := generate_product_matching_response q.2
      if g.1.length = 0 then
        send_response no_match_msg AgentState.INFO_GATHERING a g.2
      else
        send_response g.1 AgentState.INTENT_DETECTION a g.2

/-- `_handle_data_retrieval` of src/agent/conversation.py. -/
def handle_data_retrieval (a : SierraAgent) (e : Env) : Res :=
  match a.current_intent with
  | Intent.ORDER_STATUS =>
    let order_number := a.collected_info.order_number
    let email := a.collected_info.email
    if truthy order_number && truthy email then
      let sr := search_orders e
      match get_order_details sr.1 with
      | some order =>
        let context := format_order_info order
        let status_text := order_status_to_readable order.Status
        let tracking_info :=
          if truthy order.TrackingNumber then
            " Your package is being tracked with number " ++ order.TrackingNumber.getD "" ++ "."
          else ""
        send_response
          ("Here\x27s the information for your order " ++ order_number.getD "" ++ "." ++
            tracking_info ++ " " ++ status_text ++ ".\n\n" ++ context ++
            "\n\nCan I help you with anything else?")
          AgentState.INTENT_DETECTION a sr.2
      | none =>
        send_response (not_found_msg (order_number.getD "") (email.getD ""))
          AgentState.INFO_GATHERING {a with collected_info := empty_collected_info} sr.2
    else
      send_response missing_info_msg AgentState.INFO_GATHERING a e
  | Intent.PRODUCT_RECOMMENDATIONS => handle_product_info_gathering a e
  | Intent.PROMOTIONS => send_response promo_month_msg AgentState.INTENT_DETECTION a e
  | Intent.NONE => send_response retrieval_fallback_msg AgentState.INTENT_DETECTION a e

/-- The merge step of `_handle_order_info_gathering` (order_utils.py
lines 104-108): update `collected_info` with any truthy newly extracted
value, leaving already collected values alone otherwise. -/
def merge_order_details (ci : CollectedInfo) (d : OrderDetails) : CollectedInfo :=
  let ci1 := if truthy d.order_number then {ci with order_number := d.order_number} else ci
  if truthy d.email then {ci1 with email := d.email} else ci1

/-- `_handle_order_info_gathering` of src/agent/utils/order_utils.py. -/
def handle_order_info_gathering (a : SierraAgent) (e : Env) : Res :=
  let ex := extract_order_details_with_llm e
  let ci2 := merge_order_details a.collected_info ex.1
  let a1 : SierraAgent := {a with collected_info := ci2}
  let order_number := ci2.order_number
  let email := ci2.email
  if truthy order_number && truthy email then
    handle_data_retrieval {a1 with state := AgentState.DATA_RETRIEVAL} ex.2
  else if !truthy order_number && !truthy email then
    send_response need_both_msg AgentState.INFO_GATHERING a1 ex.2
  else if !truthy order_number then
    send_response (need_order_number_msg (email.getD "")) AgentState.INFO_GATHERING a1 ex.2
  else if !truthy email then
    send_response (need_email_msg (order_number.getD "")) AgentState.INFO_GATHERING a1 ex.2
  else
    send_response need_more_info_msg AgentState.INFO_GATHERING a1 ex.2

/-- The intent dispatch chain of `_handle_intent_detection`
(src/agent/conversation.py lines 87-103), applied after the tracked
intent has been replaced and the collected info reset. -/
def dispatch_intent (i : Intent) (a : SierraAgent) (e : Env) : Res :=
  match i with
  | Intent.ORDER_STATUS => handle_order_info_gathering a e
  | Intent.PRODUCT_RECOMMENDATIONS => handle_product_info_gathering a e
  | Intent.PROMOTIONS => send_response promotions_menu_msg AgentState.INTENT_DETECTION a e
  | Intent.NONE => send_response intent_fallback_msg AgentState.INTENT_DETECTION a e

/-- `_handle_intent_detection` of src/agent/conversation.py. -/
def handle_intent_detection (a : SierraAgent) (e : Env) : Res :=
  let d := detect_intent_llm e
  if d.1 == "none" then
    send_response clarification_msg AgentState.INTENT_DETECTION a d.2
  else
    dispatch_intent (intent_mapping d.1)
      {a with current_intent := intent_mapping d.1, collected_info := empty_collected_info}
      d.2

/-- `_handle_info_gathering` of src/agent/conversation.py. -/
def handle_info_gathering (a : SierraAgent) (e : Env) : Res :=
  let d := detect_intent_llm e
  let detected_intent := intent_mapping d.1
  if detected_intent ≠ Intent.NONE ∧ detected_intent ≠ a.current_intent then
    handle_intent_detection
      {a with current_intent := detected_intent,
              collected_info := empty_collected_info,
              state := AgentState.INTENT_DETECTION}
      d.2
  else
    match a.current_intent with
    | Intent.ORDER_STATUS => handle_order_info_gathering a d.2
    | Intent.PRODUCT_RECOMMENDATIONS => handle_product_info_gathering a d.2
    | _ =>
      (info_fallback_msg,
       {a with conversation_history := a.conversation_history ++ [⟨Role.assistant, info_fallback_msg⟩],
               state := AgentState.INTENT_DETECTION},
       d.2)

/-- `process_message` of src/agent/conversation.py. -/
def process_message (user_message : String) (a : SierraAgent) (e : Env) : Res :=
  if a.state = AgentState.WELCOME then
    send_response welcome_msg AgentState.INTENT_DETECTION a e
  else
    let a1 : SierraAgent :=
      if user_message ≠ "" then
        {a with conversation_history := a.conversation_history ++ [⟨Role.user, user_message⟩]}
      else a
    if a1.state = AgentState.INTENT_DETECTION then handle_intent_detection a1 e
    else if a1.state = AgentState.INFO_GATHERING then handle_info_gathering a1 e
    else (default_fallback_msg, a1, e)

/-- Process a list of user turns in order, as the chat loop of
src/main.py does, discarding the reply texts. -/
def run_session (a : SierraAgent) (e : Env) : List String → SierraAgent × Env
  | [] => (a, e)
  | m :: ms =>
    let r := process_message m a e
    run_session r.2.1 r.2.2 ms

/-! Concrete sessions and scripts used by the witnesses and
counterexamples below. -/

/-- A session gathering order slots (one slot filled) whose next turn is
classified as a product request twice in a row by the scripted oracle. -/
def c1_agent : SierraAgent :=
  ⟨[], AgentState.INFO_GATHERING, Intent.ORDER_STATUS, ⟨some "#W001", none⟩, [], []⟩

/-- Oracle script for the drift turn: two product classifications, a
positive sufficiency answer and a grounded reply over a one-item
catalog. -/
def c1_env : Env :=
  ⟨[some "product_recommendations", some "product_recommendations"], [],
   [some "yes"], [some "Our Alpine Boots are in stock."],
   [[⟨"Alpine Boots", "SOBO-01", 5, "Sturdy hiking boots", ["hiking"]⟩]], []⟩

/-- Same drift scenario used to count classifier calls. -/
def c2_agent : SierraAgent :=
  ⟨[], AgentState.INFO_GATHERING, Intent.ORDER_STATUS, ⟨some "#W001", none⟩, [], []⟩

/-- Script holding exactly two classification responses, both consumed in
a single drift turn. -/
def c2_env : Env :=
  ⟨[some "product_recommendations", some "product_recommendations"], [],
   [some "yes"], [some "Our Alpine Boots would suit you well."],
   [[⟨"Alpine Boots", "SOBO-01", 5, "Sturdy hiking boots", ["hiking"]⟩]], []⟩

/-- A session right after the welcome turn whose next classification is
the "promotions" label. -/
def c3_agent : SierraAgent :=
  ⟨[⟨Role.assistant, welcome_msg⟩], AgentState.INTENT_DETECTION, Intent.NONE,
   empty_collected_info, [], []⟩

/-- Script classifying the turn as "promotions". -/
def c3_env : Env := ⟨[some "promotions"], [], [], [], [], []⟩

/-- A session right after the welcome turn whose next classification is
the "other_discounts" label. -/
def c4_agent : SierraAgent :=
  ⟨[⟨Role.assistant, welcome_msg⟩], AgentState.INTENT_DETECTION, Intent.NONE,
   empty_collected_info, [], []⟩

/-- Script classifying the turn as "other_discounts". -/
def c4_env : Env := ⟨[some "other_discounts"], [], [], [], [], []⟩

/-- An order-status session with both slots already collected. -/
def c5_agent : SierraAgent :=
  ⟨[], AgentState.INFO_GATHERING, Intent.ORDER_STATUS,
   ⟨some "#W001", some "jane@example.com"⟩, [], []⟩

/-- Script where the extraction returns nothing new and the lookup
succeeds. -/
def c5_env : Env :=
  ⟨[], [some ⟨none, none⟩], [], [], [],
   [some [⟨"#W001", "Jane", "jane@example.com", ["Boots"], "delivered", some "T123"⟩]]⟩

/-- A retrieval-phase session holding the slot values of the spec example. -/
def c6_agent : SierraAgent :=
  ⟨[], AgentState.DATA_RETRIEVAL, Intent.ORDER_STATUS,
   ⟨some "#W999", some "nobody@example.com"⟩, [], []⟩

/-- Script whose order search returns the empty result set. -/
def c6_env : Env := ⟨[], [], [], [], [], [some []]⟩

/-- A product-recommendation session in the gathering phase. -/
def c7_agent : SierraAgent :=
  ⟨[], AgentState.INFO_GATHERING, Intent.PRODUCT_RECOMMENDATIONS, empty_collected_info, [], []⟩

/-- Script with a positive sufficiency answer and a raw generation output
of "ok", which is nonempty after trimming yet of length at most 2. -/
def c7_env : Env :=
  ⟨[], [], [some "yes"], [some "ok"],
   [[⟨"Alpine Boots", "SOBO-01", 5, "Sturdy hiking boots", ["hiking"]⟩]], []⟩

/-! Helper lemmas about how each handler moves the state, the collected
info, the tracked intent and the classification queue. -/

theorem send_response_state (m : String) (st : AgentState) (a : SierraAgent) (e : Env) :
    (send_response m st a e).2.1.state = st := rfl

theorem send_response_env (m : String) (st : AgentState) (a : SierraAgent) (e : Env) :
    (send_response m st a e).2.2 = e := rfl

theorem send_response_intent (m : String) (st : AgentState) (a : SierraAgent) (e : Env) :
    (send_response m st a e).2.1.current_intent = a.current_intent := rfl

theorem get_all_products_intents (e : Env) : (get_all_products e).2.intents = e.intents := by
  unfold get_all_products
  split <;> rfl

theorem check_for_product_question_intents (e : Env) :
    (check_for_product_question e).2.intents = e.intents := by
  unfold check_for_product_question
  split
  · rfl
  · split <;> rfl

theorem generate_product_matching_response_intents (e : Env) :
    (generate_product_matching_response e).2.intents = e.intents := by
  unfold generate_product_matching_response
  split
  · rfl
  · split <;> rfl

theorem extract_order_details_with_llm_intents (e : Env) :
    (extract_order_details_with_llm e).2.intents = e.intents := by
  unfold extract_order_details_with_llm
  split <;> rfl

theorem search_orders_intents (e : Env) : (search_orders e).2.intents = e.intents := by
  unfold search_orders
  split <;> rfl

theorem detect_intent_llm_intents (e : Env) :
    (detect_intent_llm e).2.intents = e.intents.tail := by
  unfold detect_intent_llm
  split
  · simp_all
  · split <;> simp_all

theorem handle_product_info_gathering_state (a : SierraAgent) (e : Env) :
    (handle_product_info_gathering a e).2.1.state = AgentState.INTENT_DETECTION ∨
    (handle_product_info_gathering a e).2.1.state = AgentState.INFO_GATHERING := by
  unfold handle_product_info_gathering
  dsimp only
  split
  · exact Or.inl rfl
  · split
    · exact Or.inr rfl
    · split
      · exact Or.inr rfl
      · exact Or.inl rfl

theorem handle_product_info_gathering_intents (a : SierraAgent) (e : Env) :
    (handle_product_info_gathering a e).2.2.intents = e.intents := by
  unfold handle_product_info_gathering
  dsimp only
  split
  · simp [send_response, get_all_products_intents]
  · split <;> simp [send_response, check_for_product_question_intents,
      generate_product_matching_response_intents, get_all_products_intents]
    split <;> simp [send_response, check_for_product_question_intents,
      generate_product_matching_response_intents, get_all_products_intents]

theorem handle_product_info_gathering_collected (a : SierraAgent) (e : Env) :
    (handle_product_info_gathering a e).2.1.collected_info = a.collected_info := by
  unfold handle_product_info_gathering
  dsimp only
  split
  · rfl
  · split
    · rfl
    · split <;> rfl

theorem handle_product_info_gathering_current_intent (a : SierraAgent) (e : Env) :
    (handle_product_info_gathering a e).2.1.current_intent = a.current_intent := by
  unfold handle_product_info_gathering
  dsimp only
  split
  · rfl
  · split
    · rfl
    · split <;> rfl

theorem handle_data_retrieval_state (a : SierraAgent) (e : Env) :
    (handle_data_retrieval a e).2.1.state = AgentState.INTENT_DETECTION ∨
    (handle_data_retrieval a e).2.1.state = AgentState.INFO_GATHERING := by
  unfold handle_data_retrieval
  dsimp only
  split
  · split
    · split
      · exact Or.inl rfl
      · exact Or.inr rfl
    · exact Or.inr rfl
  · exact handle_product_info_gathering_state _ _
  · exact Or.inl rfl
  · exact Or.inl rfl

theorem handle_data_retrieval_intents (a : SierraAgent) (e : Env) :
    (handle_data_retrieval a e).2.2.intents = e.intents := by
  unfold handle_data_retrieval
  dsimp only
  split
  · split
    · split <;> simp [send_response, search_orders_intents]
    · rfl
  · exact handle_product_info_gathering_intents _ _
  · rfl
  · rfl

theorem handle_data_retrieval_current_intent (a : SierraAgent) (e : Env) :
    (handle_data_retrieval a e).2.1.current_intent = a.current_intent := by
  unfold handle_data_retrieval
  dsimp only
  split
  · split
    · split <;> rfl
    · rfl
  · exact handle_product_info_gathering_current_intent _ _
  · rfl
  · rfl

theorem handle_data_retrieval_collected (a : SierraAgent) (e : Env) :
    (handle_data_retrieval a e).2.1.collected_info = a.collected_info ∨
    ((handle_data_retrieval a e).2.1.collected_info = empty_collected_info ∧
      (handle_data_retrieval a e).2.1.state = AgentState.INFO_GATHERING) := by
  unfold handle_data_retrieval
  dsimp only
  split
  · split
    · split
      · exact Or.inl rfl
      · exact Or.inr ⟨rfl, rfl⟩
    · exact Or.inl rfl
  · exact Or.inl (handle_product_info_gathering_collected _ _)
  · exact Or.inl rfl
  · exact Or.inl rfl

theorem handle_order_info_gathering_state (a : SierraAgent) (e : Env) :
    (handle_order_info_gathering a e).2.1.state = AgentState.INTENT_DETECTION ∨
    (handle_order_info_gathering a e).2.1.state = AgentState.INFO_GATHERING := by
  unfold handle_order_info_gathering
  dsimp only
  split
  · exact handle_data_retrieval_state _ _
  · split
    · exact Or.inr rfl
    · split
      · exact Or.inr rfl
      · split <;> exact Or.inr rfl

theorem handle_order_info_gathering_intents (a : SierraAgent) (e : Env) :
    (handle_order_info_gathering a e).2.2.intents = e.intents := by
  unfold handle_order_info_gathering
  dsimp only
  split
  · simp [handle_data_retrieval_intents, extract_order_details_with_llm_intents]
  · split
    · simp [send_response, extract_order_details_with_llm_intents]
    · split
      · simp [send_response, extract_order_details_with_llm_intents]
      · split <;> simp [send_response, extract_order_details_with_llm_intents]

theorem handle_order_info_gathering_current_intent (a : SierraAgent) (e : Env) :
    (handle_order_info_gathering a e).2.1.current_intent = a.current_intent := by
  unfold handle_order_info_gathering
  dsimp only
  split
  · exact handle_data_retrieval_current_intent _ _
  · split
    · rfl
    · split
      · rfl
      · split <;> rfl

theorem dispatch_intent_state (i : Intent) (a : SierraAgent) (e : Env) :
    (dispatch_intent i a e).2.1.state = AgentState.INTENT_DETECTION ∨
    (dispatch_intent i a e).2.1.state = AgentState.INFO_GATHERING := by
  unfold dispatch_intent
  split
  · exact handle_order_info_gathering_state _ _
  · exact handle_product_info_gathering_state _ _
  · exact Or.inl rfl
  · exact Or.inl rfl

theorem dispatch_intent_intents (i : Intent) (a : SierraAgent) (e : Env) :
    (dispatch_intent i a e).2.2.intents = e.intents := by
  unfold dispatch_intent
  split
  · exact handle_order_info_gathering_intents _ _
  · exact handle_product_info_gathering_intents _ _
  · rfl
  · rfl

theorem dispatch_intent_current_intent (i : Intent) (a : SierraAgent) (e : Env) :
    (dispatch_intent i a e).2.1.current_intent = a.current_intent := by
  unfold dispatch_intent
  split
  · exact handle_order_info_gathering_current_intent _ _
  · exact handle_product_info_gathering_current_intent _ _
  · rfl
  · rfl

theorem handle_intent_detection_state (a : SierraAgent) (e : Env) :
    (handle_intent_detection a e).2.1.state = AgentState.INTENT_DETECTION ∨
    (handle_intent_detection a e).2.1.state = AgentState.INFO_GATHERING := by
  unfold handle_intent_detection
  dsimp only
  split
  · exact Or.inl rfl
  · exact dispatch_intent_state _ _ _

theorem handle_intent_detection_intents (a : SierraAgent) (e : Env) :
    (handle_intent_detection a e).2.2.intents = e.intents.tail := by
  unfold handle_intent_detection
  dsimp only
  split
  · simp [send_response, detect_intent_llm_intents]
  · simp [dispatch_intent_intents, detect_intent_llm_intents]

theorem handle_info_gathering_state (a : SierraAgent) (e : Env) :
    (handle_info_gathering a e).2.1.state = AgentState.INTENT_DETECTION ∨
    (handle_info_gathering a e).2.1.state = AgentState.INFO_GATHERING := by
  unfold handle_info_gathering
  dsimp only
  split
  · exact handle_intent_detection_state _ _
  · split
    · exact handle_order_info_gathering_state _ _
    · exact handle_product_info_gathering_state _ _
    · exact Or.inl rfl

theorem handle_info_gathering_intents (a : SierraAgent) (e : Env) :
    (handle_info_gathering a e).2.2.intents = e.intents.tail ∨
    (handle_info_gathering a e).2.2.intents = e.intents.tail.tail := by
  unfold handle_info_gathering
  dsimp only
  split
  · exact Or.inr (by simp [handle_intent_detection_intents, detect_intent_llm_intents])
  · split
    · exact Or.inl (by simp [handle_order_info_gathering_intents, detect_intent_llm_intents])
    · exact Or.inl (by simp [handle_product_info_gathering_intents, detect_intent_llm_intents])
    · exact Or.inl (by simp [detect_intent_llm_intents])

theorem process_message_state (m : String) (a : SierraAgent) (e : Env)
    (h : a.state ≠ AgentState.DATA_RETRIEVAL) :
    (process_message m a e).2.1.state = AgentState.INTENT_DETECTION ∨
    (process_message m a e).2.1.state = AgentState.INFO_GATHERING := by
  unfold process_message
  dsimp only
  split
  · exact Or.inl rfl
  · split
    · split
      · exact handle_intent_detection_state _ _
      · split
        · exact handle_info_gathering_state _ _
        · simp_all
          cases hs : a.state <;> simp_all
    · split
      · exact handle_intent_detection_state _ _
      · split
        · exact handle_info_gathering_state _ _
        · simp_all
          cases hs : a.state <;> simp_all

theorem process_message_intents (m : String) (a : SierraAgent) (e : Env) :
    (process_message m a e).2.2.intents = e.intents ∨
    (process_message m a e).2.2.intents = e.intents.tail ∨
    (process_message m a e).2.2.intents = e.intents.tail.tail := by
  unfold process_message
  dsimp only
  split
  · exact Or.inl rfl
  · split <;> split
    · exact Or.inr (Or.inl (handle_intent_detection_intents _ _))
    · split
      · rcases handle_info_gathering_intents _ e with h | h
        · exact Or.inr (Or.inl h)
        · exact Or.inr (Or.inr h)
      · exact Or.inl rfl
    · exact Or.inr (Or.inl (handle_intent_detection_intents _ _))
    · split
      · rcases handle_info_gathering_intents _ e with h | h
        · exact Or.inr (Or.inl h)
        · exact Or.inr (Or.inr h)
      · exact Or.inl rfl

theorem merge_order_details_order_number (ci : CollectedInfo) (d : OrderDetails) :
    (merge_order_details ci d).order_number =
      if truthy d.order_number then d.order_number else ci.order_number := by
  unfold merge_order_details
  dsimp only
  split <;> split <;> rfl

theorem merge_order_details_email (ci : CollectedInfo) (d : OrderDetails) :
    (merge_order_details ci d).email =
      if truthy d.email then d.email else ci.email := by
  unfold merge_order_details
  dsimp only
  split
  · rfl
  · split <;> rfl

theorem run_session_active_phase (ms : List String) : ∀ (a : SierraAgent) (e : Env),
    (a.state = AgentState.INTENT_DETECTION ∨ a.state = AgentState.INFO_GATHERING) →
    ((run_session a e ms).1.state = AgentState.INTENT_DETECTION ∨
      (run_session a e ms).1.state = AgentState.INFO_GATHERING) := by
  induction ms with
  | nil => intro a e h; simpa [run_session] using h
  | cons m ms ih =>
    intro a e h
    simp only [run_session]
    apply ih
    apply process_message_state
    rcases h with h | h <;> simp [h]

/-! Claim theorems. -/

/-- C1: for a session in INFO_GATHERING whose turn is classified (by both
classifier calls the code makes on this path) with a label mapping to an
intent J that is neither NONE nor the tracked intent, the very same
`process_message` call clears the slots, replaces the tracked intent by J
and produces its reply through the dispatch path of J, with no further
user turn. -/
theorem intent_drift_immediate_dispatch (a : SierraAgent) (e : Env) (m lJ : String)
    (rest : List (Option String))
    (hst : a.state = AgentState.INFO_GATHERING)
    (hm : m ≠ "")
    (hq : e.intents = some lJ :: some lJ :: rest)
    (hne : intent_mapping (normalize_intent_label lJ) ≠ Intent.NONE)
    (hdiff : intent_mapping (normalize_intent_label lJ) ≠ a.current_intent) :
    process_message m a e =
      dispatch_intent (intent_mapping (normalize_intent_label lJ))
        {a with conversation_history := a.conversation_history ++ [⟨Role.user, m⟩],
                state := AgentState.INTENT_DETECTION,
                current_intent := intent_mapping (normalize_intent_label lJ),
                collected_info := empty_collected_info}
        {e with intents := rest} ∧
    (process_message m a e).2.1.current_intent = intent_mapping (normalize_intent_label lJ) := by
  have hlab : (normalize_intent_label lJ == "none") = false := by
    rcases hbe : normalize_intent_label lJ == "none" with _ | _
    · rfl
    · exact absurd (by rw [eq_of_beq hbe]; rfl) hne
  have h1 : process_message m a e =
      dispatch_intent (intent_mapping (normalize_intent_label lJ))
        {a with conversation_history := a.conversation_history ++ [⟨Role.user, m⟩],
                state := AgentState.INTENT_DETECTION,
                current_intent := intent_mapping (normalize_intent_label lJ),
                collected_info := empty_collected_info}
        {e with intents := rest} := by
    unfold process_message
    rw [if_neg (by rw [hst]; exact fun hx => AgentState.noConfusion hx)]
    dsimp only
    rw [if_pos hm]
    rw [if_neg (by show ¬({a with conversation_history := _}.state = _); rw [hst]; exact fun hx => AgentState.noConfusion hx)]
    rw [if_pos (by show ({a with conversation_history := _}.state = _); rw [hst])]
    unfold handle_info_gathering
    simp only [detect_intent_llm, hq]
    rw [if_pos (⟨hne, hdiff⟩ :
      intent_mapping (normalize_intent_label lJ) ≠ Intent.NONE ∧
      intent_mapping (normalize_intent_label lJ) ≠
        ({a with conversation_history := a.conversation_history ++ [⟨Role.user, m⟩]} : SierraAgent).current_intent)]
    unfold handle_intent_detection
    simp only [detect_intent_llm]
    rw [hlab]
    rfl
  exact ⟨h1, by rw [h1, dispatch_intent_current_intent]⟩

/-- C1 witness: concrete drift from ORDER_STATUS (one slot filled) to the
product-recommendation flow within a single turn. -/
theorem intent_drift_immediate_dispatch_witness :
    process_message "what hiking boots do you carry" c1_agent c1_env =
      dispatch_intent (intent_mapping (normalize_intent_label "product_recommendations"))
        {c1_agent with
           conversation_history :=
             c1_agent.conversation_history ++ [⟨Role.user, "what hiking boots do you carry"⟩],
           state := AgentState.INTENT_DETECTION,
           current_intent := intent_mapping (normalize_intent_label "product_recommendations"),
           collected_info := empty_collected_info}
        {c1_env with intents := []} ∧
    (process_message "what hiking boots do you carry" c1_agent c1_env).2.1.current_intent =
      intent_mapping (normalize_intent_label "product_recommendations") :=
  intent_drift_immediate_dispatch c1_agent c1_env "what hiking boots do you carry"
    "product_recommendations" [] rfl (by decide) rfl (by decide) (by decide)

/-- C2 (amended): one `process_message` call consumes at most two entries
of the classification script, i.e. the intent classifier is invoked at
most twice per user turn (and the classification queue is only ever
popped, never extended). -/
theorem intent_classifier_at_most_twice_per_turn (m : String) (a : SierraAgent) (e : Env) :
    ((process_message m a e).2.2.intents = e.intents ∨
      (process_message m a e).2.2.intents = e.intents.tail ∨
      (process_message m a e).2.2.intents = e.intents.tail.tail) ∧
    e.intents.length ≤ (process_message m a e).2.2.intents.length + 2 := by
  refine ⟨process_message_intents m a e, ?_⟩
  rcases process_message_intents m a e with h | h | h <;> rw [h] <;> simp [List.length_tail] <;> omega

/-- C2 counterexample: a single drift turn consumes both scripted
classification responses, so the classifier is called twice in one
`process_message` call, contradicting the at-most-once claim. -/
theorem intent_classifier_called_twice_on_drift :
    c2_env.intents.length = 2 ∧
    (process_message "actually, recommend me some products" c2_agent c2_env).2.2.intents = [] :=
  ⟨rfl, rfl⟩

/-- C3: on a turn classified "promotions" the dispatch replies with the
fixed generic promotions menu and loops to INTENT_DETECTION; the reply is
not the time-gated Early Risers result, neither the in-window message of
09:00 nor the out-of-window message of 11:00, because
`handle_early_risers_promotion` is never called by the dispatch. -/
theorem promotions_reply_ignores_time_gate :
    (process_message "Tell me about the Early Risers Promotion" c3_agent c3_env).1 =
      promotions_menu_msg ∧
    (process_message "Tell me about the Early Risers Promotion" c3_agent c3_env).2.1.state =
      AgentState.INTENT_DETECTION ∧
    promotions_menu_msg ≠ handle_early_risers_promotion 9 "09:00 AM" "AB12CD34" ∧
    promotions_menu_msg ≠ handle_early_risers_promotion 11 "11:00 AM" "AB12CD34" :=
  ⟨rfl, rfl, by decide, by decide⟩

/-- C4: the classifier accepts the label "other_discounts", but the
dispatch mapping has no entry for it, so the turn falls through to the
generic unknown-intent fallback with intent NONE instead of the fixed
decline reply of `handle_other_promotion_requests`. -/
theorem other_discounts_label_not_dispatched_to_decline :
    normalize_intent_label "other_discounts" = "other_discounts" ∧
    (process_message "Do you have any discount codes?" c4_agent c4_env).1 = intent_fallback_msg ∧
    (process_message "Do you have any discount codes?" c4_agent c4_env).1 ≠
      handle_other_promotion_requests ∧
    (process_message "Do you have any discount codes?" c4_agent c4_env).2.1.current_intent =
      Intent.NONE ∧
    (process_message "Do you have any discount codes?" c4_agent c4_env).2.1.state =
      AgentState.INTENT_DETECTION :=
  ⟨rfl, rfl, by decide, rfl, rfl⟩

/-- C5: an order slot-filling turn leaves the collected info exactly at
the merge of the previous info with the extraction result, unless a
failed lookup cleared it while returning to INFO_GATHERING; and the merge
never unsets a slot that was already set, a null or empty extraction
leaving the stored value untouched. -/
theorem slot_monotonicity (a : SierraAgent) (e : Env) :
    ((handle_order_info_gathering a e).2.1.collected_info =
        merge_order_details a.collected_info (extract_order_details_with_llm e).1 ∨
      ((handle_order_info_gathering a e).2.1.collected_info = empty_collected_info ∧
        (handle_order_info_gathering a e).2.1.state = AgentState.INFO_GATHERING)) ∧
    (truthy a.collected_info.order_number = true →
      truthy (merge_order_details a.collected_info
        (extract_order_details_with_llm e).1).order_number = true) ∧
    (truthy a.collected_info.email = true →
      truthy (merge_order_details a.collected_info
        (extract_order_details_with_llm e).1).email = true) := by
  refine ⟨?_, ?_, ?_⟩
  · unfold handle_order_info_gathering
    dsimp only
    split
    · exact handle_data_retrieval_collected _ _
    · split
      · exact Or.inl rfl
      · split
        · exact Or.inl rfl
        · split <;> exact Or.inl rfl
  · rw [merge_order_details_order_number]
    intro h
    split
    · assumption
    · exact h
  · rw [merge_order_details_email]
    intro h
    split
    · assumption
    · exact h

/-- C5 witness: with both slots set and an extraction returning nothing,
both slots survive the merge. -/
theorem slot_monotonicity_witness :
    truthy c5_agent.collected_info.email = true ∧
    truthy (merge_order_details c5_agent.collected_info
      (extract_order_details_with_llm c5_env).1).email = true ∧
    truthy (merge_order_details c5_agent.collected_info
      (extract_order_details_with_llm c5_env).1).order_number = true :=
  ⟨by decide, (slot_monotonicity c5_agent c5_env).2.2 (by decide),
    (slot_monotonicity c5_agent c5_env).2.1 (by decide)⟩

/-- C6: a retrieval turn for ORDER_STATUS whose order search returns the
empty result set replies with the apology that embeds both the submitted
order number and email, clears the collected info, and moves the phase to
INFO_GATHERING. -/
theorem order_not_found_recovery (a : SierraAgent) (e : Env) (onum em : String)
    (rest : List (Option (List Order)))
    (hI : a.current_intent = Intent.ORDER_STATUS)
    (hon : a.collected_info.order_number = some onum)
    (hem : a.collected_info.email = some em)
    (hon2 : onum ≠ "") (hem2 : em ≠ "")
    (hq : e.orderSearches = some [] :: rest) :
    (handle_data_retrieval a e).1 = not_found_msg onum em ∧
    (∃ s1 s2 s3, (handle_data_retrieval a e).1 = s1 ++ onum ++ s2 ++ em ++ s3) ∧
    (handle_data_retrieval a e).2.1.collected_info = empty_collected_info ∧
    (handle_data_retrieval a e).2.1.state = AgentState.INFO_GATHERING := by
  unfold handle_data_retrieval
  rw [hI]
  dsimp only
  rw [hon, hem]
  have ht : (truthy (some onum) && truthy (some em)) = true := by
    simp [truthy, hon2, hem2]
  rw [ht]
  simp only [if_true]
  simp only [search_orders, hq]
  dsimp only [get_order_details]
  refine ⟨rfl, ⟨"Sorry, I couldn\x27t find an order with number ", " for email ",
    ". Please double check and try again.", rfl⟩, rfl, rfl⟩

/-- C6 witness: the spec example, order number "#W999" and email
"nobody@example.com" against an empty result set. -/
theorem order_not_found_recovery_witness :
    (handle_data_retrieval c6_agent c6_env).1 = not_found_msg "#W999" "nobody@example.com" ∧
    (∃ s1 s2 s3, (handle_data_retrieval c6_agent c6_env).1 =
      s1 ++ "#W999" ++ s2 ++ "nobody@example.com" ++ s3) ∧
    (handle_data_retrieval c6_agent c6_env).2.1.collected_info = empty_collected_info ∧
    (handle_data_retrieval c6_agent c6_env).2.1.state = AgentState.INFO_GATHERING :=
  order_not_found_recovery c6_agent c6_env "#W999" "nobody@example.com" []
    rfl rfl rfl (by decide) (by decide) rfl

/-- C7 (amended): with a nonempty catalog, a positive sufficiency answer
and a raw generation output whose trimmed length is at most 2 (the code
condition, rather than exactly zero), the turn replies with the no-match
re-prompt and stays in INFO_GATHERING. -/
theorem short_generation_treated_as_no_match (a : SierraAgent) (e : Env)
    (cat : List Product) (restc : List (List Product))
    (sraw graw : String) (rests restg : List (Option String))
    (hc : e.catalogs = cat :: restc) (hcne : cat.isEmpty = false)
    (hs : e.sufficiency = some sraw :: rests)
    (hyes : py_lower (py_strip sraw) = "yes")
    (hg : e.generations = some graw :: restg)
    (hshort : (py_strip graw).length ≤ 2) :
    (handle_product_info_gathering a e).1 = no_match_msg ∧
    (handle_product_info_gathering a e).2.1.state = AgentState.INFO_GATHERING := by
  unfold handle_product_info_gathering
  dsimp only
  simp only [get_all_products, hc]
  rw [hcne]
  simp only [Bool.false_eq_true, if_false]
  simp only [check_for_product_question, hs, hyes]
  simp only [generate_product_matching_response, hg]
  rw [if_pos hshort]
  simp [send_response]

/-- C7 counterexample: the raw generation output "ok" has nonzero length
after trimming, yet the turn still produces the no-match re-prompt rather
than returning the generated text, so emptiness is not "strictly zero
length after trimming". -/
theorem nonempty_trimmed_generation_still_no_match :
    (py_strip "ok").length = 2 ∧
    (handle_product_info_gathering c7_agent c7_env).1 = no_match_msg ∧
    (handle_product_info_gathering c7_agent c7_env).1 ≠ py_strip "ok" ∧
    (handle_product_info_gathering c7_agent c7_env).2.1.state = AgentState.INFO_GATHERING :=
  ⟨rfl, rfl, by decide, rfl⟩

/-- C7 witness: concrete instance of the amended claim at the generation
output "ok". -/
theorem short_generation_treated_as_no_match_witness :
    (handle_product_info_gathering c7_agent c7_env).1 = no_match_msg ∧
    (handle_product_info_gathering c7_agent c7_env).2.1.state = AgentState.INFO_GATHERING :=
  short_generation_treated_as_no_match c7_agent c7_env
    [⟨"Alpine Boots", "SOBO-01", 5, "Sturdy hiking boots", ["hiking"]⟩] []
    "yes" "ok" [] [] rfl rfl rfl (by decide) rfl (by decide)

/-- C8: whenever the session is in WELCOME, `process_message` returns the
fixed welcome text for any input (the input is not recorded), appends only
the assistant welcome turn, transitions to INTENT_DETECTION, and leaves
the environment scripts untouched, so no classification happens. -/
theorem welcome_first_turn (m : String) (a : SierraAgent) (e : Env)
    (h : a.state = AgentState.WELCOME) :
    process_message m a e =
      (welcome_msg,
       {a with conversation_history := a.conversation_history ++ [⟨Role.assistant, welcome_msg⟩],
               state := AgentState.INTENT_DETECTION},
       e) := by
  unfold process_message
  rw [if_pos h]
  rfl

/-- C8 witness: the empty first input on a fresh session. -/
theorem welcome_first_turn_witness :
    process_message "" initial_agent ⟨[], [], [], [], [], []⟩ =
      (welcome_msg,
       {initial_agent with
          conversation_history := initial_agent.conversation_history ++ [⟨Role.assistant, welcome_msg⟩],
          state := AgentState.INTENT_DETECTION},
       ⟨[], [], [], [], [], []⟩) :=
  welcome_first_turn "" initial_agent ⟨[], [], [], [], [], []⟩ rfl

/-- C9: the first call on a fresh session changes only the phase and the
history, the history afterwards holds just the assistant welcome turn (the
user's text is never appended), the environment is untouched, and the
result does not depend on the input string at all. -/
theorem first_turn_frame_effect (s : String) (e : Env) :
    (process_message s initial_agent e).2.1 =
      {initial_agent with state := AgentState.INTENT_DETECTION,
                          conversation_history := [⟨Role.assistant, welcome_msg⟩]} ∧
    (process_message s initial_agent e).2.2 = e ∧
    (process_message s initial_agent e).1 = welcome_msg ∧
    ∀ s2 : String, process_message s2 initial_agent e = process_message s initial_agent e :=
  ⟨rfl, rfl, rfl, fun _ => rfl⟩

/-- C10: after any nonempty sequence of processed turns starting from a
fresh session, the resting phase is INTENT_DETECTION or INFO_GATHERING:
WELCOME is left for good on the first turn and DATA_RETRIEVAL never
survives to the end of a turn. -/
theorem resting_phase_always_active (m : String) (ms : List String) (e : Env) :
    (run_session initial_agent e (m :: ms)).1.state = AgentState.INTENT_DETECTION ∨
    (run_session initial_agent e (m :: ms)).1.state = AgentState.INFO_GATHERING := by
  simp only [run_session]
  apply run_session_active_phase
  exact process_message_state m initial_agent e (by decide)

end Sierra
